import Mathlib

/-!
Verification of the wasapi_low_latency streaming pipeline against its
natural-language specification.

The development shallowly embeds the claim-relevant parts of the Rust
sources (`src/main.rs`, `src/activate_audio_async.rs`):

* the rtrb single-producer/single-consumer byte ring buffer, modelled as a
  byte queue with an explicit physical read position so that the
  wrap-around split of `ReadChunk::as_slices` is captured faithfully;
* one iteration of the capture inner loop (`main.rs` lines 115-141) and of
  the render inner loop (`main.rs` lines 160-179);
* the stream-initialisation decision logic of `init_ac`
  (`main.rs` lines 201-286) together with `to_reference_time`;
* the completion handlers of `activate_audio_async.rs` (the one-shot slot
  of `AsyncHandler` and the event-signalling `SyncHandler`), and the
  control structure of `activate_audio_interface_sync`;
* the thread/event structure that `main` builds around the pipeline.

Machine integers are modelled as `Nat`/`Int`; none of the arithmetic in
the claims approaches overflow bounds. Fallible operations return
`Except`.
-/

namespace Wasapi

/-! ### Windows constants used by the source -/

/-- `AUDCLNT_SHAREMODE_SHARED` from the Windows audio client API. -/
def AUDCLNT_SHAREMODE_SHARED : Nat := 0

/-- `AUDCLNT_STREAMFLAGS_LOOPBACK` (0x00020000). -/
def AUDCLNT_STREAMFLAGS_LOOPBACK : Nat := 0x00020000

/-- `AUDCLNT_STREAMFLAGS_EVENTCALLBACK` (0x00040000). -/
def AUDCLNT_STREAMFLAGS_EVENTCALLBACK : Nat := 0x00040000

/-- `WAVE_FORMAT_IEEE_FLOAT` format tag. -/
def WAVE_FORMAT_IEEE_FLOAT : Nat := 3

/-- The Windows `INFINITE` timeout sentinel (0xFFFFFFFF): a wait with this
value never times out. A timeout is bounded exactly when it differs from
this sentinel. -/
def INFINITE : Nat := 0xFFFFFFFF

/-! ### rtrb ring buffer

`RingBuffer::new(c)` allocates a byte ring of capacity `c`, split into a
producer half (`capture` in `main`) and a consumer half (`render`).  We
model the joint state: the byte queue currently resident, plus the
physical index of the read head inside the backing array, which rtrb
needs to split a read chunk into its two `as_slices` parts at the wrap
point. -/

structure RingBuffer where
  /-- total byte capacity (`RingBuffer::new(48000 * 2)` in `main`) -/
  cap : Nat
  /-- physical index of the read head in the backing array, `< cap` -/
  head : Nat
  /-- bytes currently resident, oldest first; `data.length ≤ cap` -/
  data : List Nat
deriving Repr, DecidableEq

/-- rtrb `ChunkError`: the only variant carries the number of slots that
were actually available. -/
inductive ChunkError where
  | tooFewSlots (available : Nat)
deriving Repr, DecidableEq

/-- Free space visible to the producer (`Producer::slots` / what
`write_chunk_uninit` checks against). -/
def RingBuffer.freeSlots (rb : RingBuffer) : Nat := rb.cap - rb.data.length

/-- Filled count visible to the consumer (`Consumer::slots`, the
`render.slots()` call in the render loop). -/
def RingBuffer.slots (rb : RingBuffer) : Nat := rb.data.length

/-- `capture.write_chunk_uninit(bytes.len())` followed by
`slot.fill_from_iter(...)` (which commits the written items): if fewer
than `bytes.length` slots are free the reservation fails with
`ChunkError::TooFewSlots(free)`, otherwise the bytes are appended. -/
def pushChunk (rb : RingBuffer) (bytes : List Nat) : Except ChunkError RingBuffer :=
  if rb.freeSlots < bytes.length then
    .error (.tooFewSlots rb.freeSlots)
  else
    .ok { rb with data := rb.data ++ bytes }

/-- A committed read of `n` bytes: `render.read_chunk(n)` followed by
`slot.commit_all()`.  Fails with `TooFewSlots` when fewer than `n` bytes
are filled.  On success it returns the two `as_slices` parts (the first
runs up to the physical end of the backing array, the second holds the
wrapped remainder) and the ring state after `commit_all`. -/
def readChunk (rb : RingBuffer) (n : Nat) :
    Except ChunkError (List Nat × List Nat × RingBuffer) :=
  if rb.data.length < n then
    .error (.tooFewSlots rb.data.length)
  else
    let chunk := rb.data.take n
    let first := chunk.take (rb.cap - rb.head)
    let second := chunk.drop (rb.cap - rb.head)
    .ok (first, second,
      { cap := rb.cap, head := (rb.head + n) % rb.cap, data := rb.data.drop n })

/-! ### Capture step (`main.rs` lines 115-141)

One pass of the capture inner loop after `GetBuffer` returned a non-null
pointer with `ftr` frames.  `rbuf` is the borrowed hardware slice of
`ftr * info.block` bytes.  The pass either reserves `rbuf.len()` bytes in
the ring buffer, copies and releases the hardware buffer with `ftr`
frames, or — when `write_chunk_uninit` reports `TooFewSlots` — releases
the hardware buffer with `0` frames and leaves the ring untouched.  The
returned pair is (ring state afterwards, argument passed to
`ReleaseBuffer`). -/

def captureStep (rb : RingBuffer) (chunk : List Nat) (ftr : Nat) :
    RingBuffer × Nat :=
  match pushChunk rb chunk with
  | .error _ => (rb, 0)
  | .ok rb' => (rb', ftr)

/-! ### Render step (`main.rs` lines 160-179)

One pass of the render inner loop.  `bufSize` is `info.buf_size`,
`padding` the value `GetCurrentPadding` returned, `block` the byte size
of one frame.  When `available = 0` the loop `continue`s back to the
outer wait (`none`).  Otherwise the hardware hands out a buffer of
`available * block` bytes, the code reads
`can_write = min (hardware bytes) (ring filled bytes)` from the ring,
copies only the FIRST `as_slices` part into the hardware buffer's prefix,
releases `first.len() / block` frames, and commits the whole chunk. -/

structure RenderOutcome where
  /-- bytes actually copied into the hardware buffer (its prefix) -/
  written : List Nat
  /-- byte length of the hardware buffer handed out (`available * block`) -/
  hwLen : Nat
  /-- frame count passed to `ReleaseBuffer` -/
  releaseArg : Nat
  /-- ring state after `commit_all` -/
  rb : RingBuffer
deriving Repr, DecidableEq

def renderStep (rb : RingBuffer) (bufSize padding block : Nat) :
    Except ChunkError (Option RenderOutcome) :=
  let available := bufSize - padding
  if available = 0 then
    .ok none
  else
    let hwBytes := available * block
    let slots := rb.slots
    let canWrite := min hwBytes slots
    match readChunk rb canWrite with
    | .error e => .error e
    | .ok (first, _second, rb') =>
        .ok (some { written := first, hwLen := hwBytes,
                    releaseArg := first.length / block, rb := rb' })

/-! ### Stream initialiser (`main.rs` `init_ac`, lines 201-286)

`init_ac` receives the audio client and an optional caller-supplied wave
format.  We embed its decision logic over an abstract endpoint: whether
the `IAudioClient3` cast succeeds, what `GetMixFormat` returns, and the
engine periods reported by `GetSharedModeEnginePeriod`.  The embedding
records which platform initialisation call was issued with which
arguments, and the `min_period` value stored in the returned
`InitInfo`. -/

structure WaveFormatEx where
  wFormatTag : Nat
  nChannels : Nat
  nSamplesPerSec : Nat
  nAvgBytesPerSec : Nat
  nBlockAlign : Nat
  wBitsPerSample : Nat
  cbSize : Nat
deriving Repr, DecidableEq

/-- The hardcoded default format built in `init_ac` when no caller format
is given and `GetMixFormat` fails (`main.rs` lines 210-218). -/
def defaultWfx : WaveFormatEx :=
  { wFormatTag := WAVE_FORMAT_IEEE_FLOAT
    nChannels := 2
    nSamplesPerSec := 48000
    nAvgBytesPerSec := 384000
    nBlockAlign := 8
    wBitsPerSample := 32
    cbSize := 22 }

/-- Durations are byte-for-byte `std::time::Duration` values, modelled by
their total nanosecond count. `Duration::from_millis(ms)` holds
`ms * 1000000` nanoseconds. -/
def durationFromMillis (ms : Nat) : Nat := ms * 1000000

/-- `to_reference_time` from `main.rs` lines 345-347:
`(d.as_nanos() / 100) as i64`, the conversion from a `Duration` to
Windows 100-nanosecond reference-time units. -/
def to_reference_time (nanos : Nat) : Int := ((nanos / 100 : Nat) : Int)

/-- Engine periods reported by `GetSharedModeEnginePeriod` (in frames). -/
structure EnginePeriods where
  defaultPeriod : Nat
  fundamentalPeriod : Nat
  minPeriod : Nat
  maxPeriod : Nat
deriving Repr, DecidableEq

/-- The behaviour of the endpoint as observed by `init_ac`: whether the
cast to `IAudioClient3` succeeds, the `GetMixFormat` outcome, and the
engine periods (consulted only on the low-latency path). -/
structure Endpoint where
  supportsAC3 : Bool
  mixFormat : Except Int WaveFormatEx
  periods : EnginePeriods
deriving Repr

/-- Arguments of a basic `IAudioClient::Initialize` call:
`(sharemode, streamflags, hnsBufferDuration, hnsPeriodicity)`. -/
structure InitCall where
  shareMode : Nat
  flags : Nat
  bufferDuration : Int
  periodicity : Int
deriving Repr, DecidableEq

/-- What `init_ac` did: the format it settled on, which initialisation
call it issued (`InitializeSharedAudioStream` with `(flags, period)` on
the low-latency path, or the basic `Initialize` call otherwise), and the
`min_period`/`block` fields of the returned `InitInfo`. -/
structure InitOutcome where
  wfx : WaveFormatEx
  sharedStreamInit : Option (Nat × Nat)
  basicInit : Option InitCall
  min_period : Nat
  block : Nat
deriving Repr, DecidableEq

/-- The basic-path `Initialize` call of `main.rs` lines 260-267: shared
mode, `AUDCLNT_STREAMFLAGS_LOOPBACK | AUDCLNT_STREAMFLAGS_EVENTCALLBACK`,
buffer duration `to_reference_time(Duration::from_millis(2))`, and zero
periodicity. -/
def basicInitCall : InitCall :=
  { shareMode := AUDCLNT_SHAREMODE_SHARED
    flags := AUDCLNT_STREAMFLAGS_LOOPBACK ||| AUDCLNT_STREAMFLAGS_EVENTCALLBACK
    bufferDuration := to_reference_time (durationFromMillis 2)
    periodicity := 0 }

/-- Embedding of `init_ac` (`main.rs` lines 201-286).  The format
resolution mirrors
`mfx.unwrap_or(ac.GetMixFormat().unwrap_or_else(|_| default))`: the
caller's format wins when present, else the mix format, else the
hardcoded default (in `unwrap_or` the mix-format query is evaluated
eagerly, but its value is discarded when `mfx` is `Some`, so the
resulting format is as below).  With `IAudioClient3` support the stream
is initialised via `InitializeSharedAudioStream` with only the
event-callback flag and the minimum engine period; otherwise via the
basic `Initialize` call, recording `min_period = 10`. -/
def init_ac (ep : Endpoint) (mfx : Option WaveFormatEx) : InitOutcome :=
  let wfx := mfx.getD (match ep.mixFormat with
    | .ok f => f
    | .error _ => defaultWfx)
  if ep.supportsAC3 then
    { wfx := wfx
      sharedStreamInit := some (AUDCLNT_STREAMFLAGS_EVENTCALLBACK, ep.periods.minPeriod)
      basicInit := none
      min_period := ep.periods.minPeriod
      block := wfx.nBlockAlign }
  else
    { wfx := wfx
      sharedStreamInit := none
      basicInit := some basicInitCall
      min_period := 10
      block := wfx.nBlockAlign }

/-! ### Activation bridge (`activate_audio_async.rs`)

The one-shot completion slot of `AsyncHandler` is a
`Mutex<Option<CompleteHandle<()>>>`.  Each `ActivateCompleted` invocation
locks the mutex and `take`s the option; only a `Some` value leads to
`handle.complete(())`.  The mutex serialises the invocations, so the
observable behaviour is that of the sequential `take` below. -/

/-- One `AsyncHandler::ActivateCompleted` invocation
(`activate_audio_async.rs` lines 169-180): returns the slot state after
the call together with the handle this invocation took (the value it
delivers via `complete`, or `none` when the slot was already taken). -/
def activateCompletedStep {H : Type} (slot : Option H) : Option H × Option H :=
  (none, slot)

/-- `n` successive `ActivateCompleted` invocations on the same handler:
final slot state and, oldest first, what each invocation took. -/
def runActivateCompleted {H : Type} (slot : Option H) : Nat → Option H × List (Option H)
  | 0 => (slot, [])
  | n + 1 =>
      let (s', d) := activateCompletedStep slot
      let (sf, ds) := runActivateCompleted s' n
      (sf, d :: ds)

/-- What a completion handler's `ActivateCompleted` body does:
`SyncHandler` only signals its event (`SetEvent(self.0)`), `AsyncHandler`
fulfils the one-shot slot. -/
inductive HandlerAction where
  | signalEvent
  | completeSlot
deriving Repr, DecidableEq

/-- Parameters of a `CreateEventW` call: `(bManualReset, bInitialState)`. -/
structure EventParams where
  manualReset : Bool
  initialState : Bool
deriving Repr, DecidableEq

/-- The event created by `activate_audio_interface_sync`
(`activate_audio_async.rs` line 94): `CreateEventW(None, false, false,
None)`, i.e. auto-reset, initially unsignalled. -/
def syncActivationEvent : EventParams := { manualReset := false, initialState := false }

/-- Platform behaviour observed by `activate_audio_interface_sync` once
the completion fires: the `(hr, interface)` pair `GetActivateResult`
writes. -/
structure Platform (H : Type) where
  hr : Int
  ai : Option H
deriving Repr, DecidableEq

/-- Trace of one `activate_audio_interface_sync` call
(`activate_audio_async.rs` lines 85-117): the wait-primitive parameters,
what the registered handler does, the wait timeout (`none` stands for
`INFINITE`), how many times the outcome was retrieved via
`GetActivateResult`, and the returned value. -/
structure SyncActivationTrace (H : Type) where
  eventParams : EventParams
  handlerAction : HandlerAction
  waitTimeoutMs : Option Nat
  getResultCalls : Nat
  result : Except Int H
deriving Repr

/-- Embedding of `activate_audio_interface_sync`: creates the event,
registers `SyncHandler` (whose `ActivateCompleted` body is exactly
`SetEvent(self.0)`), blocks on `WaitForSingleObject(ev, INFINITE)`,
calls `GetActivateResult` once, and returns the interface on success or
`windows::core::Error::from(hr)` when no interface came back. -/
def activate_audio_interface_sync {H : Type} (p : Platform H) : SyncActivationTrace H :=
  { eventParams := syncActivationEvent
    handlerAction := .signalEvent
    waitTimeoutMs := none
    getResultCalls := 1
    result := match p.ai with
      | some comi => .ok comi
      | none => .error p.hr }

/-! ### Thread and event structure of the pipeline (`main.rs` `main`)

`main` spawns two run-loop threads, `"capture"` (lines 93-146) and
`"render"` (lines 149-184).  Each thread calls `init_ac`, which creates
its own fresh event via `CreateEventW` and binds it to its own audio
client with `SetEventHandle`; each thread's loop then waits on its own
event with `WaitForSingleObject(info.ev, INFINITE)`.  Event creation is
modelled as a fresh-handle allocator. -/

inductive ThreadRole where
  | capture
  | render
deriving Repr, DecidableEq

/-- `CreateEventW` as a fresh-handle allocator: returns the new handle
and the next allocator state; distinct calls yield distinct handles. -/
def createEventW (nextId : Nat) : Nat × Nat := (nextId, nextId + 1)

/-- One spawned run-loop thread of `main`: its role, the event handle its
`WaitForSingleObject` call waits on, and the timeout it passes. -/
structure RunLoopThread where
  role : ThreadRole
  waitEvent : Nat
  waitTimeout : Nat
deriving Repr, DecidableEq

/-- The run-loop threads `main` spawns, in spawn order: the capture
thread and the render thread, each waiting on the event its own
`init_ac` call created, with timeout `INFINITE`. -/
def mainThreads : List RunLoopThread :=
  let (captureEv, n) := createEventW 0
  let (renderEv, _) := createEventW n
  [ { role := .capture, waitEvent := captureEv, waitTimeout := INFINITE },
    { role := .render, waitEvent := renderEv, waitTimeout := INFINITE } ]

/-- Timeout of the wait at the top of the capture loop
(`main.rs` line 113): `WaitForSingleObject(info.ev, INFINITE)`. -/
def captureWaitTimeout : Nat := INFINITE

/-- Timeout of the wait at the top of the render loop
(`main.rs` line 159): `WaitForSingleObject(info.ev, INFINITE)`. -/
def renderWaitTimeout : Nat := INFINITE

/-! ## Theorems -/

/-- C1 (counterexample): with ring capacity 16, read head at physical
index 12 and 8 resident bytes (M = 1 frame of block 8), a render cycle
requesting N = 2 frames does NOT copy exactly M frames: the readable
region wraps around the end of the backing array, so only the first
4-byte slice is copied, `ReleaseBuffer` receives 0 (not M = 1), yet
`commit_all` consumes all 8 resident bytes — more than were copied. -/
theorem render_underrun_wrap_cex :
    (RingBuffer.mk 16 12 (List.replicate 8 7)).slots = 1 * 8 ∧
    renderStep (RingBuffer.mk 16 12 (List.replicate 8 7)) 2 0 8 =
      .ok (some (RenderOutcome.mk (List.replicate 4 7) 16 0 (RingBuffer.mk 16 4 []))) ∧
    ¬ ((List.replicate 4 7).length = 1 * 8) ∧ ¬ ((0 : Nat) = 1) := by
  refine ⟨rfl, by rfl, by decide, by decide⟩

/-- C1 (amended): in a render cycle where the hardware requests N frames
and the ring buffer holds M frames with 0 < M < N, PROVIDED the M
resident frames lie in one contiguous run of the backing array (no
wrap-around before the read head reaches the end), the render step
copies exactly the M resident frames (M times block bytes) into the
hardware buffer of N times block bytes, leaves the remaining N - M
frames untouched, consumes exactly the copied bytes, and releases
exactly M frames (a whole-frame quantity, at most the frames
requested).  When the run wraps, the step still consumes M frames but
copies and releases only the first contiguous slice
(see the counterexample). -/
theorem render_underrun_no_wrap (rb : RingBuffer) (bufSize padding block M N : Nat)
    (hblock : 0 < block)
    (hM : rb.data.length = M * block)
    (havail : bufSize - padding = N)
    (hMN : M < N) (hMpos : 0 < M)
    (hnowrap : M * block ≤ rb.cap - rb.head) :
    renderStep rb bufSize padding block =
      .ok (some { written := rb.data
                  hwLen := N * block
                  releaseArg := M
                  rb := { cap := rb.cap, head := (rb.head + M * block) % rb.cap, data := [] } }) := by
  have hN0 : ¬ (bufSize - padding = 0) := by omega
  have hMNb : M * block ≤ N * block := Nat.mul_le_mul_right block (Nat.le_of_lt hMN)
  have hcan : min ((bufSize - padding) * block) rb.slots = M * block := by
    rw [havail, RingBuffer.slots, hM]
    exact min_eq_right hMNb
  unfold renderStep
  dsimp only
  rw [if_neg hN0, hcan]
  unfold readChunk
  rw [if_neg (by rw [hM]; omega)]
  dsimp only
  have htake : rb.data.take (M * block) = rb.data := by
    rw [← hM]; exact List.take_length rb.data
  have hdrop : rb.data.drop (M * block) = [] := by
    rw [← hM]; exact List.drop_length rb.data
  rw [htake]
  have hfirst : rb.data.take (rb.cap - rb.head) = rb.data := by
    apply List.take_of_length_le
    rw [hM]; exact hnowrap
  rw [hfirst, hdrop, havail]
  have hrel : rb.data.length / block = M := by
    rw [hM]; exact Nat.mul_div_cancel M hblock
  rw [hrel]

/-- C1 witness: the underrun scenario of the specification — N = 256
frames requested, M = 100 frames (800 bytes at block 8) resident and
contiguous — instantiates the amended theorem. -/
theorem render_underrun_no_wrap_witness :
    0 < 8 ∧ (List.replicate 800 3).length = 100 * 8 ∧ 256 - 0 = 256 ∧
    100 < 256 ∧ 0 < 100 ∧ 100 * 8 ≤ 96000 - 0 ∧
    renderStep (RingBuffer.mk 96000 0 (List.replicate 800 3)) 256 0 8 =
      .ok (some { written := List.replicate 800 3
                  hwLen := 256 * 8
                  releaseArg := 100
                  rb := { cap := 96000, head := (0 + 100 * 8) % 96000, data := [] } }) :=
  ⟨by decide, by rw [List.length_replicate], rfl, by decide, by decide, by decide,
    render_underrun_no_wrap (RingBuffer.mk 96000 0 (List.replicate 800 3)) 256 0 8 100 256
      (by decide) (by rw [List.length_replicate]) rfl (by decide) (by decide) (by decide)⟩

/-- Auxiliary fact for C2: once the one-shot slot is empty, every further
`ActivateCompleted` invocation leaves it empty and takes nothing. -/
theorem runActivateCompleted_taken (H : Type) (n : Nat) :
    runActivateCompleted (H := H) none n = (none, List.replicate n none) := by
  induction n with
  | zero => rfl
  | succ n ih => simp [runActivateCompleted, activateCompletedStep, ih, List.replicate_succ]

/-- C2 (confirmed): for every sequence of at least one
`AsyncHandler::ActivateCompleted` invocation on the same handler, only
the first invocation takes the completion handle (and thus delivers the
completion); every later invocation finds the slot already taken and
takes `none`, so nothing is delivered twice. -/
theorem one_shot_slot_delivers_once {H : Type} (h : H) (n : Nat) (hn : 1 ≤ n) :
    runActivateCompleted (some h) n = (none, some h :: List.replicate (n - 1) none) := by
  obtain ⟨m, rfl⟩ : ∃ m, n = m + 1 := ⟨n - 1, by omega⟩
  simp [runActivateCompleted, activateCompletedStep, runActivateCompleted_taken]

/-- C2 witness: three invocations deliver the handle exactly once. -/
theorem one_shot_slot_delivers_once_witness :
    1 ≤ 3 ∧ runActivateCompleted (some ()) 3 = (none, some () :: List.replicate (3 - 1) none) :=
  ⟨by decide, one_shot_slot_delivers_once () 3 (by decide)⟩

/-- C3 (confirmed): when the free space of the ring buffer is smaller
than the incoming hardware chunk of `ftr` frames (`ftr * block` bytes),
the capture step drops the whole chunk: the ring buffer is returned
unchanged (same contents, same fill level) and the hardware buffer is
released with 0 frames.  `captureStep` is a total function — the overrun
branch returns at once instead of waiting for the render side. -/
theorem capture_overrun_drops_chunk (rb : RingBuffer) (chunk : List Nat) (ftr block : Nat)
    (hchunk : chunk.length = ftr * block)
    (hfull : rb.freeSlots < chunk.length) :
    captureStep rb chunk ftr = (rb, 0) := by
  simp [captureStep, pushChunk, hfull]

/-- C3 witness: the overrun scenario of the specification — capacity
4800 bytes, block 8, a 1000-frame (8000-byte) chunk arriving while only
800 bytes are free — instantiates the theorem. -/
theorem capture_overrun_drops_chunk_witness :
    (List.replicate 8000 1).length = 1000 * 8 ∧
    (RingBuffer.mk 4800 0 (List.replicate 4000 0)).freeSlots < (List.replicate 8000 1).length ∧
    captureStep (RingBuffer.mk 4800 0 (List.replicate 4000 0)) (List.replicate 8000 1) 1000 =
      (RingBuffer.mk 4800 0 (List.replicate 4000 0), 0) :=
  ⟨by rw [List.length_replicate],
    by simp only [RingBuffer.freeSlots, List.length_replicate]; decide,
    capture_overrun_drops_chunk _ _ 1000 8 (by rw [List.length_replicate])
      (by simp only [RingBuffer.freeSlots, List.length_replicate]; decide)⟩

/-- C4 (counterexample): on an endpoint whose low-latency capability
probe fails, the fallback `Initialize` call is issued with buffer
duration `to_reference_time(Duration::from_millis(2))` = 20000
reference-time units, i.e. 2 ms — not the 10 ms the claim states
(which would be 100000 units).  The value 10 appears only as the
`min_period` the initialiser reports back to its caller. -/
theorem basic_init_period_not_ten_ms :
    (init_ac { supportsAC3 := false, mixFormat := .error 1, periods := ⟨0, 0, 0, 0⟩ }
        none).basicInit = some basicInitCall ∧
    basicInitCall.bufferDuration = 20000 ∧
    to_reference_time (durationFromMillis 10) = 100000 ∧
    ¬ (basicInitCall.bufferDuration = to_reference_time (durationFromMillis 10)) := by
  refine ⟨by simp [init_ac], by rfl, by rfl, by decide⟩

/-- C4 (amended): for every endpoint whose probe for the extended
low-latency capability fails, the stream initialiser initialises the
endpoint in shared mode via the basic `Initialize` call with buffer
duration `to_reference_time(Duration::from_millis(2))` (2 ms, not
10 ms), with the loopback flag combined with the event-callback flag,
zero periodicity, and it reports a fallback period of 10 (ms) to its
caller; the low-latency initialisation call is not issued. -/
theorem basic_init_call_amended (ep : Endpoint) (mfx : Option WaveFormatEx)
    (h : ep.supportsAC3 = false) :
    (init_ac ep mfx).sharedStreamInit = none ∧
    (init_ac ep mfx).basicInit = some basicInitCall ∧
    basicInitCall.shareMode = AUDCLNT_SHAREMODE_SHARED ∧
    basicInitCall.flags = AUDCLNT_STREAMFLAGS_LOOPBACK ||| AUDCLNT_STREAMFLAGS_EVENTCALLBACK ∧
    basicInitCall.bufferDuration = to_reference_time (durationFromMillis 2) ∧
    basicInitCall.periodicity = 0 ∧
    (init_ac ep mfx).min_period = 10 := by
  refine ⟨by simp [init_ac, h], by simp [init_ac, h], rfl, rfl, rfl, rfl, by simp [init_ac, h]⟩

/-- C4 witness: a concrete endpoint failing the capability probe
instantiates the amended theorem. -/
theorem basic_init_call_amended_witness :
    (Endpoint.mk false (.ok defaultWfx) ⟨10, 5, 3, 20⟩).supportsAC3 = false ∧
    ((init_ac (Endpoint.mk false (.ok defaultWfx) ⟨10, 5, 3, 20⟩) none).sharedStreamInit = none ∧
      (init_ac (Endpoint.mk false (.ok defaultWfx) ⟨10, 5, 3, 20⟩) none).basicInit =
        some basicInitCall ∧
      basicInitCall.shareMode = AUDCLNT_SHAREMODE_SHARED ∧
      basicInitCall.flags = AUDCLNT_STREAMFLAGS_LOOPBACK ||| AUDCLNT_STREAMFLAGS_EVENTCALLBACK ∧
      basicInitCall.bufferDuration = to_reference_time (durationFromMillis 2) ∧
      basicInitCall.periodicity = 0 ∧
      (init_ac (Endpoint.mk false (.ok defaultWfx) ⟨10, 5, 3, 20⟩) none).min_period = 10) :=
  ⟨rfl, basic_init_call_amended (Endpoint.mk false (.ok defaultWfx) ⟨10, 5, 3, 20⟩) none rfl⟩

/-- C5 (counterexample): the run loops do NOT wait with a short bounded
timeout — both the capture loop and the render loop pass the `INFINITE`
sentinel to `WaitForSingleObject`, an unbounded wait. -/
theorem run_loop_wait_not_bounded :
    captureWaitTimeout = INFINITE ∧ renderWaitTimeout = INFINITE ∧
    ¬ renderWaitTimeout < INFINITE ∧ ¬ captureWaitTimeout < INFINITE :=
  ⟨rfl, rfl, Nat.lt_irrefl INFINITE, Nat.lt_irrefl INFINITE⟩

/-- C5 (amended): in every iteration of the two run loops, the wait on
the wake event uses the unbounded `INFINITE` timeout (not a short
bounded one); all ring-buffer operations are non-blocking and return
explicit not-enough-room or not-enough-data outcomes
(`ChunkError::TooFewSlots`) instead of waiting. -/
theorem run_loop_wait_infinite_ring_explicit (rb rbr : RingBuffer) (bytes : List Nat) (n : Nat)
    (hfull : rb.freeSlots < bytes.length) (hlack : rbr.data.length < n) :
    captureWaitTimeout = INFINITE ∧ renderWaitTimeout = INFINITE ∧
    pushChunk rb bytes = .error (.tooFewSlots rb.freeSlots) ∧
    readChunk rbr n = .error (.tooFewSlots rbr.data.length) :=
  ⟨rfl, rfl, by simp [pushChunk, hfull], by simp [readChunk, hlack]⟩

/-- C5 witness: a full ring rejecting a write and an empty ring
rejecting a read instantiate the amended theorem. -/
theorem run_loop_wait_infinite_ring_explicit_witness :
    (RingBuffer.mk 4 0 [9, 9, 9]).freeSlots < ([5, 6] : List Nat).length ∧
    (RingBuffer.mk 4 0 []).data.length < 1 ∧
    (captureWaitTimeout = INFINITE ∧ renderWaitTimeout = INFINITE ∧
      pushChunk (RingBuffer.mk 4 0 [9, 9, 9]) [5, 6] =
        .error (.tooFewSlots (RingBuffer.mk 4 0 [9, 9, 9]).freeSlots) ∧
      readChunk (RingBuffer.mk 4 0 []) 1 =
        .error (.tooFewSlots (RingBuffer.mk 4 0 []).data.length)) :=
  ⟨by decide, by decide,
    run_loop_wait_infinite_ring_explicit (RingBuffer.mk 4 0 [9, 9, 9]) (RingBuffer.mk 4 0 [])
      [5, 6] 1 (by decide) (by decide)⟩

/-- C6 (counterexample): the synchronous activation does NOT create a
manual-reset wait primitive — `CreateEventW(None, false, false, None)`
passes `false` for the manual-reset parameter, creating an auto-reset
event. -/
theorem sync_event_not_manual_reset :
    (activate_audio_interface_sync (H := Unit) { hr := 0, ai := none }).eventParams.manualReset
        = false ∧
    ¬ ((activate_audio_interface_sync (H := Unit)
        { hr := 0, ai := none }).eventParams.manualReset = true) :=
  ⟨rfl, by decide⟩

/-- C6 (amended): for every activation request, the synchronous
activation creates an AUTO-reset (not manual-reset), initially
unsignalled wait primitive, registers a completion handler that only
signals that primitive, blocks the calling thread on it without a
timeout until the platform completes, retrieves the outcome exactly
once; when the platform reports no interface, it returns the platform
status code wrapped as an error. -/
theorem activate_sync_trace_on_failure {H : Type} (p : Platform H) (hfail : p.ai = none) :
    (activate_audio_interface_sync p).eventParams =
      { manualReset := false, initialState := false } ∧
    (activate_audio_interface_sync p).handlerAction = HandlerAction.signalEvent ∧
    (activate_audio_interface_sync p).waitTimeoutMs = none ∧
    (activate_audio_interface_sync p).getResultCalls = 1 ∧
    (activate_audio_interface_sync p).result = Except.error p.hr := by
  refine ⟨rfl, rfl, rfl, rfl, ?_⟩
  simp [activate_audio_interface_sync, hfail]

/-- C6 witness: a platform completion reporting status 5 and no
interface instantiates the amended theorem. -/
theorem activate_sync_trace_on_failure_witness :
    (Platform.mk (H := Unit) 5 none).ai = none ∧
    ((activate_audio_interface_sync (Platform.mk (H := Unit) 5 none)).eventParams =
        { manualReset := false, initialState := false } ∧
      (activate_audio_interface_sync (Platform.mk (H := Unit) 5 none)).handlerAction =
        HandlerAction.signalEvent ∧
      (activate_audio_interface_sync (Platform.mk (H := Unit) 5 none)).waitTimeoutMs = none ∧
      (activate_audio_interface_sync (Platform.mk (H := Unit) 5 none)).getResultCalls = 1 ∧
      (activate_audio_interface_sync (Platform.mk (H := Unit) 5 none)).result =
        Except.error (Platform.mk (H := Unit) 5 none).hr) :=
  ⟨rfl, activate_sync_trace_on_failure (Platform.mk (H := Unit) 5 none) rfl⟩

/-- Auxiliary fact for C7: the format `init_ac` settles on is the
caller-supplied one when present, else the mix-format query result,
else the hardcoded default. -/
theorem init_ac_wfx (ep : Endpoint) (mfx : Option WaveFormatEx) :
    (init_ac ep mfx).wfx =
      mfx.getD (match ep.mixFormat with | .ok f => f | .error _ => defaultWfx) := by
  unfold init_ac
  by_cases h : ep.supportsAC3 <;> simp [h]

/-- C7 (confirmed): the stream initialiser resolves the format by the
fixed precedence caller-supplied, then endpoint mix format, then — when
no caller format is given and the mix-format query fails — the
hardcoded default, which is exactly 32-bit IEEE float, 2 channels,
48000 samples per second, block alignment 8 bytes. -/
theorem format_precedence (ep : Endpoint) (mfx : Option WaveFormatEx) :
    ((∃ f, mfx = some f ∧ (init_ac ep mfx).wfx = f) ∨
      (mfx = none ∧ ∃ m, ep.mixFormat = .ok m ∧ (init_ac ep mfx).wfx = m) ∨
      (mfx = none ∧ (∃ e, ep.mixFormat = .error e) ∧ (init_ac ep mfx).wfx = defaultWfx)) ∧
    defaultWfx.wFormatTag = WAVE_FORMAT_IEEE_FLOAT ∧ defaultWfx.nChannels = 2 ∧
    defaultWfx.nSamplesPerSec = 48000 ∧ defaultWfx.wBitsPerSample = 32 ∧
    defaultWfx.nBlockAlign = 8 := by
  refine ⟨?_, rfl, rfl, rfl, rfl, rfl⟩
  cases mfx with
  | some f => exact Or.inl ⟨f, rfl, by simp [init_ac_wfx]⟩
  | none =>
    rcases hm : ep.mixFormat with e | m
    · exact Or.inr (Or.inr ⟨rfl, ⟨e, rfl⟩, by simp [init_ac_wfx, hm]⟩)
    · exact Or.inr (Or.inl ⟨rfl, m, rfl, by simp [init_ac_wfx, hm]⟩)

/-- C8 (counterexample): the streaming pipeline is NOT driven by a
single thread — `main` spawns two run-loop threads, one for the capture
half and one for the render half. -/
theorem pipeline_not_single_thread :
    mainThreads.length = 2 ∧ ¬ mainThreads.length = 1 :=
  ⟨rfl, by decide⟩

/-- C8 (amended): once constructed, the streaming pipeline is driven by
TWO threads — a capture thread and a render thread, in that spawn order
— each executing its own run loop and each waiting (with the `INFINITE`
timeout) on its OWN wake event created by its own initialisation call;
the two wake events are distinct, and no ordering of render before
capture exists between the threads. -/
theorem pipeline_two_threads_distinct_events :
    mainThreads.length = 2 ∧
    mainThreads.map RunLoopThread.role = [ThreadRole.capture, ThreadRole.render] ∧
    mainThreads.map RunLoopThread.waitTimeout = [INFINITE, INFINITE] ∧
    (mainThreads.map RunLoopThread.waitEvent).Nodup :=
  ⟨rfl, rfl, rfl, by decide⟩

/-- C9 (confirmed): the ring-buffer read in the render step can never
hit the error branch: the requested read size is
`min (hardware bytes) (filled bytes observed)`, which never exceeds the
filled count, so `read_chunk` always succeeds and the render step
always returns an ok outcome. -/
theorem render_read_never_fails (rb : RingBuffer) (bufSize padding block : Nat) :
    ∃ v, renderStep rb bufSize padding block = .ok v := by
  unfold renderStep
  dsimp only
  by_cases h : bufSize - padding = 0
  · rw [if_pos h]; exact ⟨none, rfl⟩
  · rw [if_neg h]
    have hle : min ((bufSize - padding) * block) rb.slots ≤ rb.data.length :=
      min_le_right _ _
    unfold readChunk
    rw [if_neg (Nat.not_lt.mpr hle)]
    exact ⟨_, rfl⟩

/-- C10 (confirmed): in the basic (non-low-latency) initialisation path
the loopback flag is passed unconditionally together with the
event-callback flag for every endpoint: `init_ac` receives no data-flow
direction at all and issues the same `Initialize` flags — exactly
`AUDCLNT_STREAMFLAGS_LOOPBACK | AUDCLNT_STREAMFLAGS_EVENTCALLBACK` —
whatever endpoint and caller format it is given, in particular for the
render endpoint as well as the capture one. -/
theorem basic_init_flags_flow_independent (ep : Endpoint) (mfx : Option WaveFormatEx)
    (h : ep.supportsAC3 = false) :
    (init_ac ep mfx).basicInit = some basicInitCall ∧
    basicInitCall.flags =
      AUDCLNT_STREAMFLAGS_LOOPBACK ||| AUDCLNT_STREAMFLAGS_EVENTCALLBACK :=
  ⟨by simp [init_ac, h], rfl⟩

/-- C10 witness: a render-side call (`init_ac(&ac, None)`) on a concrete
endpoint failing the capability probe instantiates the theorem. -/
theorem basic_init_flags_flow_independent_witness :
    (Endpoint.mk false (.error 3) ⟨0, 0, 0, 0⟩).supportsAC3 = false ∧
    ((init_ac (Endpoint.mk false (.error 3) ⟨0, 0, 0, 0⟩) none).basicInit = some basicInitCall ∧
      basicInitCall.flags =
        AUDCLNT_STREAMFLAGS_LOOPBACK ||| AUDCLNT_STREAMFLAGS_EVENTCALLBACK) :=
  ⟨rfl, basic_init_flags_flow_independent (Endpoint.mk false (.error 3) ⟨0, 0, 0, 0⟩) none rfl⟩

end Wasapi
